import Mathlib

/-!
Shallow embedding of the client-side orchestration layer in
`src/app/(dashboard)/projects/[projectId]/page.tsx`.

Each React handler is modelled as a pure function from the caller identity
(`userId : Option String`), the previous workspace snapshot, and the outcomes
of the remote calls it issues (passed in as `Except Unit _` parameters,
mirroring resolved/rejected promises) to the resulting snapshot together with
the observable effects: how many remote API calls were issued, which error
toasts and which success toasts were emitted.  `try/catch` around an awaited
call becomes a `match` on the corresponding `Except`; the early
`if (!userId) return;` guard becomes a test on `userId.isNone`.
-/

namespace SixFigureRag

/-- Project record; this layer only stores it opaquely, so just an id. -/
structure Project where
  id : String
  deriving Repr, DecidableEq

/-- Chat (conversation) record as used by this layer: filtered by `id`,
prepended whole. -/
structure Chat where
  id : String
  title : String
  projectId : String
  deriving Repr, DecidableEq

/-- Document record as used by this layer: filtered by `id`, prepended whole. -/
structure ProjectDocument where
  id : String
  sourceType : String
  status : String
  deriving Repr, DecidableEq

/-- Settings: the source spreads the object (`{...prev.settings, ...updates}`);
`ProjectSettings` itself lives in `@/lib/types` (a shallow record of named
options), so it is modelled as a finite association list from field names to
values, which captures JavaScript spread observationally. -/
abbrev SettingsRec := List (String × String)

/-- The `ProjectData` state: `{project, chats, documents, settings}`. -/
structure Snapshot where
  project : Option Project
  chats : List Chat
  documents : List ProjectDocument
  settings : Option SettingsRec
  deriving Repr, DecidableEq

/-- The initial `useState` value: all-null/empty snapshot. -/
def emptySnapshot : Snapshot :=
  { project := none, chats := [], documents := [], settings := none }

/-- Observable outcome of one handler invocation: the new snapshot, the number
of remote API calls issued, and the toast messages emitted. -/
structure HandlerResult where
  snap : Snapshot
  remoteCalls : Nat
  errorToasts : List String
  successToasts : List String
  deriving Repr, DecidableEq

/-- JavaScript object spread `{...base, ...updates}` on shallow records:
fields named in `updates` take their `updates` value, all other fields keep
their `base` value. -/
def spreadMerge (base updates : SettingsRec) : SettingsRec :=
  base.filter (fun p => (updates.lookup p.1).isNone) ++ updates

/-- The `loadAllData` effect: four reads issued via `Promise.all`; if all four
resolve, `setData` replaces the whole `ProjectData` object with the four
results (error stays null); if any rejects, the `catch` runs, `setData` is
never called and `setError("Failed to fetch data")` fires.  Returns the
resulting snapshot and the error flag. -/
def loadAllData (userId : Option String) (prev : Snapshot)
    (projectRes : Except Unit Project) (chatsRes : Except Unit (List Chat))
    (documentsRes : Except Unit (List ProjectDocument))
    (settingsRes : Except Unit SettingsRec) : Snapshot × Option String :=
  if userId.isNone then (prev, none)
  else
    match projectRes, chatsRes, documentsRes, settingsRes with
    | .ok p, .ok cs, .ok ds, .ok st =>
        ({ project := some p, chats := cs, documents := ds, settings := some st }, none)
    | _, _, _, _ => (prev, some "Failed to fetch data")

/-- `handleCreateNewChat`: guard on `userId`, POST `/api/chats`, on success
prepend the server-returned chat, on failure leave state and toast an error. -/
def handleCreateNewChat (userId : Option String) (prev : Snapshot)
    (result : Except Unit Chat) : HandlerResult :=
  if userId.isNone then ⟨prev, 0, [], []⟩
  else
    match result with
    | .ok savedChat =>
        ⟨{ prev with chats := savedChat :: prev.chats }, 1, [],
          ["Chat Created successfully"]⟩
    | .error _ => ⟨prev, 1, ["Failed to create chat"], []⟩

/-- `handleDeleteChat`: guard on `userId`, DELETE `/api/chats/{chatId}`, on
success drop the matching id from the chat list. -/
def handleDeleteChat (userId : Option String) (chatId : String) (prev : Snapshot)
    (result : Except Unit Unit) : HandlerResult :=
  if userId.isNone then ⟨prev, 0, [], []⟩
  else
    match result with
    | .ok _ =>
        ⟨{ prev with chats := prev.chats.filter (fun chat => chat.id != chatId) }, 1, [],
          ["Chat deleted successfully"]⟩
    | .error _ => ⟨prev, 1, ["Failed to delete chat"], []⟩

/-- One file item of an upload batch: `{name, size, type}` as sent to the
upload-url reservation call. -/
structure FileItem where
  name : String
  size : Nat
  type : String
  deriving Repr, DecidableEq

instance {ε α : Type} [DecidableEq ε] [DecidableEq α] : DecidableEq (Except ε α) := fun x y =>
  match x, y with
  | .ok a, .ok b =>
      if h : a = b then .isTrue (by rw [h]) else .isFalse (fun hc => by cases hc; exact h rfl)
  | .error a, .error b =>
      if h : a = b then .isTrue (by rw [h]) else .isFalse (fun hc => by cases hc; exact h rfl)
  | .ok _, .error _ => .isFalse (fun hc => by cases hc)
  | .error _, .ok _ => .isFalse (fun hc => by cases hc)

/-- Outcomes of the three per-file remote stages: reserve a presigned URL
(yields `{upload_url, s3_key}`), transfer to S3, confirm (yields the canonical
document). -/
structure UploadOutcome where
  reserve : Except Unit (String × String)
  transfer : Except Unit Unit
  confirm : Except Unit ProjectDocument
  deriving Repr, DecidableEq

/-- The per-file pipeline body of `handleDocumentUpload`: stages run in order
inside one `try`; the first failing stage aborts that item alone. -/
def processFile (o : UploadOutcome) : Except Unit ProjectDocument :=
  match o.reserve with
  | .error _ => .error ()
  | .ok _ =>
    match o.transfer with
    | .error _ => .error ()
    | .ok _ => o.confirm

/-- Number of remote calls one file item issues: the reserve call always, the
transfer only after reserve succeeded, the confirm only after transfer. -/
def fileCalls (o : UploadOutcome) : Nat :=
  match o.reserve with
  | .error _ => 1
  | .ok _ =>
    match o.transfer with
    | .error _ => 2
    | .ok _ => 3

/-- Document contributed by one file item: its confirmed record if every stage
succeeded (`uploadedDocuments.push` in the source), else nothing. -/
def uploadedDoc (fo : FileItem × UploadOutcome) : Option ProjectDocument :=
  (processFile fo.2).toOption

/-- Per-item failure toast of `handleDocumentUpload`'s catch block. -/
def uploadFailureMsg (fo : FileItem × UploadOutcome) : Option String :=
  match processFile fo.2 with
  | .error _ => some ("Failed to upload " ++ fo.1.name)
  | .ok _ => none

/-- `handleDocumentUpload`: guard on `userId`; run every file's three-stage
pipeline, each isolated in its own `try/catch`; wait for all to settle
(`Promise.allSettled`); then, if at least one document was collected, prepend
the collected group to the document list and toast a count.  The collected
group is taken in batch order (one admissible completion order of the
concurrently settled items). -/
def handleDocumentUpload (userId : Option String) (prev : Snapshot)
    (files : List (FileItem × UploadOutcome)) : HandlerResult :=
  if userId.isNone then ⟨prev, 0, [], []⟩
  else
    let uploadedDocuments := files.filterMap uploadedDoc
    let failures := files.filterMap uploadFailureMsg
    let calls := (files.map (fun fo => fileCalls fo.2)).sum
    if uploadedDocuments.length > 0 then
      ⟨{ prev with documents := uploadedDocuments ++ prev.documents }, calls, failures,
        [toString uploadedDocuments.length ++ " file(s) uploaded"]⟩
    else ⟨prev, calls, failures, []⟩

/-- `handleDocumentDelete`: guard on `userId`, DELETE the file, on success drop
the matching id from the document list. -/
def handleDocumentDelete (userId : Option String) (documentId : String)
    (prev : Snapshot) (result : Except Unit Unit) : HandlerResult :=
  if userId.isNone then ⟨prev, 0, [], []⟩
  else
    match result with
    | .ok _ =>
        ⟨{ prev with documents := prev.documents.filter (fun doc => doc.id != documentId) },
          1, [], ["Document deleted successfully!"]⟩
    | .error _ => ⟨prev, 1, ["Document deletion failed"], []⟩

/-- `handleUrlAdd`: guard on `userId`, POST the url, on success prepend the
returned document. -/
def handleUrlAdd (userId : Option String) (url : String) (prev : Snapshot)
    (result : Except Unit ProjectDocument) : HandlerResult :=
  if userId.isNone then ⟨prev, 0, [], []⟩
  else
    match result with
    | .ok newDocument =>
        ⟨{ prev with documents := newDocument :: prev.documents }, 1, [],
          ["Website added successfully!"]⟩
    | .error _ => ⟨prev, 1, ["Failed to add website"], []⟩

/-- `handleDraftSettings`: purely local `setData`; if settings are not loaded
it logs a console warning and returns the previous state unchanged, otherwise
it spreads `updates` over the current settings copy.  It consults no identity
and issues no remote call; the second component is the (always empty) list of
error toasts. -/
def handleDraftSettings (prev : Snapshot) (updates : SettingsRec) :
    Snapshot × List String :=
  match prev.settings with
  | none => (prev, [])
  | some s => ({ prev with settings := some (spreadMerge s updates) }, [])

/-- `handlePublishSettings`: the guard `if (!userId || !data.settings)` toasts
"Cannot save settings" and returns before any remote call; otherwise PUT the
full current settings, on success replace the local copy with the server
response, on failure leave state and toast an error. -/
def handlePublishSettings (userId : Option String) (prev : Snapshot)
    (result : Except Unit SettingsRec) : HandlerResult :=
  if userId.isNone || prev.settings.isNone then ⟨prev, 0, ["Cannot save settings"], []⟩
  else
    match result with
    | .ok serverSettings =>
        ⟨{ prev with settings := some serverSettings }, 1, [],
          ["Settings saved successfully!"]⟩
    | .error _ => ⟨prev, 1, ["Failed to save settings!"], []⟩

/-- Claim C1: for every combination of the four initial reads succeeding or
failing, the load either replaces all four fields of the snapshot with the
four results (all reads succeeded) or leaves the snapshot exactly at its prior
value (any read failed); a partially replaced snapshot is never observable. -/
theorem loadAllData_atomic (u : String) (prev : Snapshot)
    (r1 : Except Unit Project) (r2 : Except Unit (List Chat))
    (r3 : Except Unit (List ProjectDocument)) (r4 : Except Unit SettingsRec) :
    (∀ p cs ds st, r1 = .ok p → r2 = .ok cs → r3 = .ok ds → r4 = .ok st →
        (loadAllData (some u) prev r1 r2 r3 r4).1 =
          { project := some p, chats := cs, documents := ds, settings := some st }) ∧
    (¬ (r1.isOk = true ∧ r2.isOk = true ∧ r3.isOk = true ∧ r4.isOk = true) →
        (loadAllData (some u) prev r1 r2 r3 r4).1 = prev) := by
  constructor
  · intro p cs ds st h1 h2 h3 h4
    subst h1; subst h2; subst h3; subst h4
    rfl
  · intro h
    cases r1 <;> cases r2 <;> cases r3 <;> cases r4 <;>
      simp_all [loadAllData, Except.isOk, Except.toBool]

theorem loadAllData_atomic_witness :
    (loadAllData (some "u") emptySnapshot (.error ()) (.ok []) (.ok []) (.ok [])).1 =
      emptySnapshot :=
  (loadAllData_atomic "u" emptySnapshot (.error ()) (.ok []) (.ok []) (.ok [])).2
    (by decide)

/-- Claim C3: if the remote publish call fails, the whole snapshot (so in
particular the local settings copy) afterwards equals exactly its value from
immediately before the call, and the failure is toasted so publish can be
retried. -/
theorem handlePublishSettings_rollback (u : String) (prev : Snapshot) (s : SettingsRec)
    (h : prev.settings = some s) :
    handlePublishSettings (some u) prev (.error ()) =
      ⟨prev, 1, ["Failed to save settings!"], []⟩ := by
  simp [handlePublishSettings, h]

theorem handlePublishSettings_rollback_witness :
    handlePublishSettings (some "u")
      { project := none, chats := [], documents := [], settings := some [("tone", "formal")] }
      (.error ())
      = ⟨{ project := none, chats := [], documents := [],
            settings := some [("tone", "formal")] },
          1, ["Failed to save settings!"], []⟩ :=
  handlePublishSettings_rollback "u" _ [("tone", "formal")] rfl

/-- Claim C4: whenever publish is invoked while settings are null, the
operation toasts a failure immediately, issues zero remote calls and leaves
the snapshot unchanged (whatever the identity and the would-be remote
outcome). -/
theorem handlePublishSettings_guard (userId : Option String) (prev : Snapshot)
    (result : Except Unit SettingsRec) (h : prev.settings = none) :
    handlePublishSettings userId prev result = ⟨prev, 0, ["Cannot save settings"], []⟩ := by
  simp [handlePublishSettings, h]

theorem handlePublishSettings_guard_witness :
    handlePublishSettings (some "u") emptySnapshot (.ok [])
      = ⟨emptySnapshot, 0, ["Cannot save settings"], []⟩ :=
  handlePublishSettings_guard (some "u") emptySnapshot (.ok []) rfl

/-- Claim C5: invoking the draft-settings operation before settings have
loaded leaves the snapshot entirely unchanged (settings stay null) and raises
no failure; once settings are loaded, draft(updates) shallow-merges the named
fields into the current settings copy (still with no failure). -/
theorem handleDraftSettings_absorb (prev : Snapshot) (updates : SettingsRec) :
    (prev.settings = none → handleDraftSettings prev updates = (prev, [])) ∧
    (∀ s, prev.settings = some s →
        handleDraftSettings prev updates =
          ({ prev with settings := some (spreadMerge s updates) }, [])) := by
  constructor
  · intro h; simp [handleDraftSettings, h]
  · intro s h; simp [handleDraftSettings, h]

theorem handleDraftSettings_absorb_witness :
    handleDraftSettings emptySnapshot [("tone", "casual")] = (emptySnapshot, []) :=
  (handleDraftSettings_absorb emptySnapshot [("tone", "casual")]).1 rfl

/-- Claim C6: after createConversation succeeds, the server-returned chat is
the first element of the new sequence and all prior elements follow it,
retaining their relative order (the tail is exactly the prior sequence). -/
theorem handleCreateNewChat_prepend (u : String) (prev : Snapshot) (c : Chat) :
    (handleCreateNewChat (some u) prev (.ok c)).snap.chats = c :: prev.chats ∧
    ((handleCreateNewChat (some u) prev (.ok c)).snap.chats).head? = some c ∧
    ((handleCreateNewChat (some u) prev (.ok c)).snap.chats).tail = prev.chats :=
  ⟨rfl, rfl, rfl⟩

/-- Claim C7: deleting an id that is not present leaves the sequence (indeed
the whole snapshot) unchanged on remote success, with no error toast and no
other mutation — for chats and for documents alike. -/
theorem delete_nonexistent_noop (u cid did : String) (prev : Snapshot)
    (h1 : cid ∉ prev.chats.map Chat.id)
    (h2 : did ∉ prev.documents.map ProjectDocument.id) :
    handleDeleteChat (some u) cid prev (.ok ()) =
      ⟨prev, 1, [], ["Chat deleted successfully"]⟩ ∧
    handleDocumentDelete (some u) did prev (.ok ()) =
      ⟨prev, 1, [], ["Document deleted successfully!"]⟩ := by
  constructor
  · have hf : prev.chats.filter (fun chat => chat.id != cid) = prev.chats := by
      apply List.filter_eq_self.mpr
      intro a ha
      simp only [bne_iff_ne, ne_eq]
      intro heq
      exact h1 (heq ▸ List.mem_map_of_mem Chat.id ha)
    have hstep : handleDeleteChat (some u) cid prev (.ok ()) =
        ⟨{ prev with chats := prev.chats.filter (fun chat => chat.id != cid) }, 1, [],
          ["Chat deleted successfully"]⟩ := rfl
    rw [hstep, hf]
  · have hf : prev.documents.filter (fun doc => doc.id != did) = prev.documents := by
      apply List.filter_eq_self.mpr
      intro a ha
      simp only [bne_iff_ne, ne_eq]
      intro heq
      exact h2 (heq ▸ List.mem_map_of_mem ProjectDocument.id ha)
    have hstep : handleDocumentDelete (some u) did prev (.ok ()) =
        ⟨{ prev with documents := prev.documents.filter (fun doc => doc.id != did) }, 1, [],
          ["Document deleted successfully!"]⟩ := rfl
    rw [hstep, hf]

theorem delete_nonexistent_noop_witness :
    handleDeleteChat (some "u") "b"
        ⟨none, [⟨"a", "t", "p"⟩], [⟨"d", "file", "ok"⟩], none⟩ (.ok ()) =
      ⟨⟨none, [⟨"a", "t", "p"⟩], [⟨"d", "file", "ok"⟩], none⟩, 1, [],
        ["Chat deleted successfully"]⟩ :=
  (delete_nonexistent_noop "u" "b" "e"
      ⟨none, [⟨"a", "t", "p"⟩], [⟨"d", "file", "ok"⟩], none⟩
      (by decide) (by decide)).1

lemma length_filterMap_uploadedDoc_of_ok (l : List (FileItem × UploadOutcome))
    (h : ∀ fo ∈ l, ∃ d, processFile fo.2 = .ok d) :
    (l.filterMap uploadedDoc).length = l.length := by
  induction l with
  | nil => rfl
  | cons a t ih =>
    obtain ⟨d, hd⟩ := h a (List.mem_cons_self a t)
    have ht := ih (fun fo hf => h fo (List.mem_cons_of_mem a hf))
    simp [List.filterMap_cons, uploadedDoc, hd, Except.toOption, ht]

lemma filterMap_failureMsg_of_ok (l : List (FileItem × UploadOutcome))
    (h : ∀ fo ∈ l, ∃ d, processFile fo.2 = .ok d) :
    l.filterMap uploadFailureMsg = [] := by
  induction l with
  | nil => rfl
  | cons a t ih =>
    obtain ⟨d, hd⟩ := h a (List.mem_cons_self a t)
    have ht := ih (fun fo hf => h fo (List.mem_cons_of_mem a hf))
    simp [List.filterMap_cons, uploadFailureMsg, hd, ht]

/-- Claim C2: in a batch `A ++ fk :: B` where every item of `A` and `B`
completes all three stages and `fk` fails (at whichever stage), the upload
merges exactly the `A.length + B.length` confirmed documents as one prepended
group, toasts a failure for `fk` alone, and leaves every other snapshot field
untouched; the merge happens only after all items have settled (the model
folds over the settled outcomes of the whole batch). -/
theorem handleDocumentUpload_isolation (u : String) (prev : Snapshot)
    (A B : List (FileItem × UploadOutcome)) (fk : FileItem × UploadOutcome)
    (hA : ∀ fo ∈ A, ∃ d, processFile fo.2 = .ok d)
    (hB : ∀ fo ∈ B, ∃ d, processFile fo.2 = .ok d)
    (hk : processFile fk.2 = .error ()) :
    (handleDocumentUpload (some u) prev (A ++ fk :: B)).errorToasts =
        ["Failed to upload " ++ fk.1.name] ∧
    (handleDocumentUpload (some u) prev (A ++ fk :: B)).snap.documents =
        (A.filterMap uploadedDoc ++ B.filterMap uploadedDoc) ++ prev.documents ∧
    (A.filterMap uploadedDoc ++ B.filterMap uploadedDoc).length = A.length + B.length ∧
    (handleDocumentUpload (some u) prev (A ++ fk :: B)).snap.project = prev.project ∧
    (handleDocumentUpload (some u) prev (A ++ fk :: B)).snap.chats = prev.chats ∧
    (handleDocumentUpload (some u) prev (A ++ fk :: B)).snap.settings = prev.settings := by
  have hDocs : (A ++ fk :: B).filterMap uploadedDoc =
      A.filterMap uploadedDoc ++ B.filterMap uploadedDoc := by
    simp [List.filterMap_append, List.filterMap_cons, uploadedDoc, hk, Except.toOption]
  have hFail : (A ++ fk :: B).filterMap uploadFailureMsg =
      ["Failed to upload " ++ fk.1.name] := by
    have hmsg : uploadFailureMsg fk = some ("Failed to upload " ++ fk.1.name) := by
      simp [uploadFailureMsg, hk]
    simp [List.filterMap_append, List.filterMap_cons, hmsg,
      filterMap_failureMsg_of_ok A hA, filterMap_failureMsg_of_ok B hB]
  have hLen : (A.filterMap uploadedDoc ++ B.filterMap uploadedDoc).length =
      A.length + B.length := by
    simp [length_filterMap_uploadedDoc_of_ok A hA, length_filterMap_uploadedDoc_of_ok B hB]
  have hres : handleDocumentUpload (some u) prev (A ++ fk :: B) =
      (if ((A ++ fk :: B).filterMap uploadedDoc).length > 0 then
        ⟨{ prev with documents := (A ++ fk :: B).filterMap uploadedDoc ++ prev.documents },
          ((A ++ fk :: B).map (fun fo => fileCalls fo.2)).sum,
          (A ++ fk :: B).filterMap uploadFailureMsg,
          [toString ((A ++ fk :: B).filterMap uploadedDoc).length ++ " file(s) uploaded"]⟩
      else ⟨prev, ((A ++ fk :: B).map (fun fo => fileCalls fo.2)).sum,
          (A ++ fk :: B).filterMap uploadFailureMsg, []⟩) := rfl
  rw [hres, hDocs, hFail]
  split
  · exact ⟨rfl, rfl, hLen, rfl, rfl, rfl⟩
  · next hneg =>
    have h0 : A.filterMap uploadedDoc ++ B.filterMap uploadedDoc = [] :=
      List.length_eq_zero.mp (Nat.eq_zero_of_not_pos hneg)
    refine ⟨rfl, ?_, hLen, rfl, rfl, rfl⟩
    rw [h0]
    rfl

theorem handleDocumentUpload_isolation_witness :
    (handleDocumentUpload (some "u") emptySnapshot
        [(⟨"a.pdf", 10, "application/pdf"⟩,
            ⟨.ok ("url1", "key1"), .ok (), .ok ⟨"d1", "file", "processing"⟩⟩),
         (⟨"b.pdf", 5, "application/pdf"⟩,
            ⟨.ok ("url2", "key2"), .error (), .ok ⟨"d2", "file", "x"⟩⟩)]).errorToasts =
      ["Failed to upload " ++ "b.pdf"] :=
  (handleDocumentUpload_isolation "u" emptySnapshot
      [(⟨"a.pdf", 10, "application/pdf"⟩,
          ⟨.ok ("url1", "key1"), .ok (), .ok ⟨"d1", "file", "processing"⟩⟩)]
      []
      (⟨"b.pdf", 5, "application/pdf"⟩,
          ⟨.ok ("url2", "key2"), .error (), .ok ⟨"d2", "file", "x"⟩⟩)
      (by
        intro fo hf
        rw [List.mem_singleton] at hf
        subst hf
        exact ⟨_, rfl⟩)
      (fun fo hf => absurd hf (List.not_mem_nil fo))
      rfl).1

/-- Claim C8, counterexample: the prepend merge does not preserve id
uniqueness unconditionally.  Starting from a chat sequence with the single id
"a" (no duplicates), a successful create whose server response carries id "a"
yields the sequence of ids ["a", "a"], a duplicate. -/
theorem merge_unique_counterexample :
    (((⟨none, [⟨"a", "t", "p"⟩], [], none⟩ : Snapshot)).chats.map Chat.id).Nodup ∧
    ¬ (((handleCreateNewChat (some "u") ⟨none, [⟨"a", "t", "p"⟩], [], none⟩
          (.ok ⟨"a", "t2", "p"⟩)).snap.chats.map Chat.id).Nodup) := by
  constructor
  · decide
  · decide

/-- Claim C8, amended: remove-by-id merges preserve id uniqueness
unconditionally; the insertion merges (prepend on create, prepend on
add-from-url, batch-prepend on upload) preserve it provided the inserted
records carry ids not already present (and, for the upload group, pairwise
distinct ids). -/
theorem merge_unique_amended (u cid did url : String) (prev : Snapshot) (c : Chat)
    (d : ProjectDocument) (files : List (FileItem × UploadOutcome)) :
    ((prev.chats.map Chat.id).Nodup →
        ((handleDeleteChat (some u) cid prev (.ok ())).snap.chats.map Chat.id).Nodup) ∧
    ((prev.documents.map ProjectDocument.id).Nodup →
        ((handleDocumentDelete (some u) did prev
            (.ok ())).snap.documents.map ProjectDocument.id).Nodup) ∧
    ((prev.chats.map Chat.id).Nodup → c.id ∉ prev.chats.map Chat.id →
        ((handleCreateNewChat (some u) prev (.ok c)).snap.chats.map Chat.id).Nodup) ∧
    ((prev.documents.map ProjectDocument.id).Nodup →
        d.id ∉ prev.documents.map ProjectDocument.id →
        ((handleUrlAdd (some u) url prev
            (.ok d)).snap.documents.map ProjectDocument.id).Nodup) ∧
    ((prev.documents.map ProjectDocument.id).Nodup →
        ((files.filterMap uploadedDoc).map ProjectDocument.id).Nodup →
        (∀ i ∈ (files.filterMap uploadedDoc).map ProjectDocument.id,
            i ∉ prev.documents.map ProjectDocument.id) →
        ((handleDocumentUpload (some u) prev
            files).snap.documents.map ProjectDocument.id).Nodup) := by
  refine ⟨?_, ?_, ?_, ?_, ?_⟩
  · intro h
    have hsub : (handleDeleteChat (some u) cid prev (.ok ())).snap.chats.Sublist prev.chats :=
      List.filter_sublist _
    exact List.Nodup.sublist (List.Sublist.map Chat.id hsub) h
  · intro h
    have hsub : (handleDocumentDelete (some u) did prev
        (.ok ())).snap.documents.Sublist prev.documents :=
      List.filter_sublist _
    exact List.Nodup.sublist (List.Sublist.map ProjectDocument.id hsub) h
  · intro h hnot
    exact List.nodup_cons.mpr ⟨hnot, h⟩
  · intro h hnot
    exact List.nodup_cons.mpr ⟨hnot, h⟩
  · intro h hgroup hdisj
    have hres : handleDocumentUpload (some u) prev files =
        (if (files.filterMap uploadedDoc).length > 0 then
          ⟨{ prev with documents := files.filterMap uploadedDoc ++ prev.documents },
            (files.map (fun fo => fileCalls fo.2)).sum,
            files.filterMap uploadFailureMsg,
            [toString (files.filterMap uploadedDoc).length ++ " file(s) uploaded"]⟩
        else ⟨prev, (files.map (fun fo => fileCalls fo.2)).sum,
            files.filterMap uploadFailureMsg, []⟩) := rfl
    rw [hres]
    split
    · show ((files.filterMap uploadedDoc ++ prev.documents).map ProjectDocument.id).Nodup
      rw [List.map_append]
      exact List.Nodup.append hgroup h hdisj
    · exact h

theorem merge_unique_amended_witness :
    ((handleCreateNewChat (some "u") ⟨none, [⟨"a", "t", "p"⟩], [], none⟩
        (.ok ⟨"b", "t2", "p"⟩)).snap.chats.map Chat.id).Nodup :=
  (merge_unique_amended "u" "x" "y" "z" ⟨none, [⟨"a", "t", "p"⟩], [], none⟩
      ⟨"b", "t2", "p"⟩ ⟨"d", "url", "ok"⟩ []).2.2.1 (by decide) (by decide)

/-- Claim C9, counterexample: with the caller identity absent, the create-chat
operation does not fail with an authorization error (nor any error at all): it
returns silently with zero remote calls, an unchanged snapshot and no error
toast. -/
theorem absent_identity_counterexample :
    handleCreateNewChat none emptySnapshot (.ok ⟨"c1", "Chat", "p1"⟩) =
      ⟨emptySnapshot, 0, [], []⟩ :=
  rfl

/-- Claim C9, amended: when the caller identity is absent each operation
returns immediately and issues zero remote calls with the snapshot unchanged;
none of them raises an authorization error — the mutating handlers report
nothing at all, publish reports only its generic precondition toast, and a
load attempt leaves both the snapshot and the error flag untouched. -/
theorem absent_identity_amended (prev : Snapshot) (cid did url : String)
    (rc : Except Unit Chat) (ru rd : Except Unit Unit)
    (files : List (FileItem × UploadOutcome)) (rdoc : Except Unit ProjectDocument)
    (rs : Except Unit SettingsRec)
    (r1 : Except Unit Project) (r2 : Except Unit (List Chat))
    (r3 : Except Unit (List ProjectDocument)) (r4 : Except Unit SettingsRec) :
    handleCreateNewChat none prev rc = ⟨prev, 0, [], []⟩ ∧
    handleDeleteChat none cid prev ru = ⟨prev, 0, [], []⟩ ∧
    handleDocumentUpload none prev files = ⟨prev, 0, [], []⟩ ∧
    handleDocumentDelete none did prev rd = ⟨prev, 0, [], []⟩ ∧
    handleUrlAdd none url prev rdoc = ⟨prev, 0, [], []⟩ ∧
    handlePublishSettings none prev rs = ⟨prev, 0, ["Cannot save settings"], []⟩ ∧
    loadAllData none prev r1 r2 r3 r4 = (prev, none) :=
  ⟨rfl, rfl, rfl, rfl, rfl, rfl, rfl⟩

/-- Claim C10: each of the create-chat, delete-chat, upload-documents,
delete-document and add-from-url handlers, invoked with the caller identity
absent, returns immediately: zero remote calls, snapshot unchanged, and no
toast of any kind. -/
theorem guard_silent_noop (prev : Snapshot) (cid did url : String)
    (rc : Except Unit Chat) (ru rd : Except Unit Unit)
    (files : List (FileItem × UploadOutcome)) (rdoc : Except Unit ProjectDocument) :
    handleCreateNewChat none prev rc = ⟨prev, 0, [], []⟩ ∧
    handleDeleteChat none cid prev ru = ⟨prev, 0, [], []⟩ ∧
    handleDocumentUpload none prev files = ⟨prev, 0, [], []⟩ ∧
    handleDocumentDelete none did prev rd = ⟨prev, 0, [], []⟩ ∧
    handleUrlAdd none url prev rdoc = ⟨prev, 0, [], []⟩ :=
  ⟨rfl, rfl, rfl, rfl, rfl⟩

end SixFigureRag
